import Mathlib

/-!
# hackmty / my-gategroup-site: the demo login flow

A shallow embedding of

* `netlify/functions/login.js` (the credential verifier `exports.handler`), and
* `assets/js/app.js` (the client hasher `sha256hex` and the submit listener),

together with the JavaScript built-ins they lean on (`JSON.parse`,
`JSON.stringify`, truthiness, `ToString`, property lookup through
`Object.prototype`, SHA-256).

Conventions.

* A JavaScript string is a Lean `String`.  The one place where JavaScript can
  build a string that is not well-formed Unicode from well-formed input is a
  lone `\uD800`..`\uDFFF` escape inside a JSON text; such a code unit is read as
  U+FFFD.  No property below looks inside such a string.
* A JSON number is kept exactly, as `(-1)^neg * mant * 10^exp10`.
* `undefined` is `none` of an `Option`.
* An `async` function either fulfils with a value or rejects with an error:
  `Outcome.returned` / `Outcome.threw`.
-/

namespace Gategroup

/-! ## JavaScript values that `JSON.parse` can produce -/

/-- Values produced by `JSON.parse`. Object members are kept in source order,
duplicates included; the last occurrence of a key is the property's value. -/
inductive JVal where
  | null : JVal
  | bool (b : Bool) : JVal
  | num (neg : Bool) (mant : Nat) (exp10 : Int) : JVal
  | str (s : String) : JVal
  | arr (items : List JVal) : JVal
  | obj (members : List (String × JVal)) : JVal

/-- Errors a JavaScript computation can throw here. The text of a `TypeError`
or `SyntaxError` is the engine's and is left out; the text of an `Error` is the
library's. -/
inductive JsError where
  | typeError : JsError
  | error (msg : String) : JsError
  | syntaxError : JsError
deriving DecidableEq, Repr

/-! ## JSON text: lexer -/

/-- Tokens of a JSON text. -/
inductive Token where
  | lbrace | rbrace | lbrack | rbrack | colon | comma
  | str (s : String)
  | num (neg : Bool) (mant : Nat) (exp10 : Int)
  | lit (v : JVal)

/-- JSON white space: space, tab, line feed, carriage return. -/
def isWs (c : Nat) : Bool := c == 32 || c == 9 || c == 10 || c == 13

/-- Decimal digit `0`..`9`. -/
def isDigit (c : Nat) : Bool := 48 ≤ c && c ≤ 57

/-- Value of a hexadecimal digit (either case). -/
def hexVal (c : Nat) : Option Nat :=
  if 48 ≤ c && c ≤ 57 then some (c - 48)
  else if 97 ≤ c && c ≤ 102 then some (c - 87)
  else if 65 ≤ c && c ≤ 70 then some (c - 55)
  else none

/-- UTF-16 code units of one code point. -/
def utf16Units (c : Nat) : List Nat :=
  if c < 65536 then [c]
  else [55296 + (c - 65536) / 1024, 56320 + (c - 65536) % 1024]

/-- Decode UTF-16 code units; a surrogate pair is one code point, an unpaired
surrogate is read as U+FFFD. -/
def utf16Decode : List Nat → List Char
  | [] => []
  | [u] => if 55296 ≤ u && u ≤ 57343 then [Char.ofNat 65533] else [Char.ofNat u]
  | u :: v :: rest =>
    if 55296 ≤ u && u ≤ 56319 && 56320 ≤ v && v ≤ 57343 then
      Char.ofNat (65536 + (u - 55296) * 1024 + (v - 56320)) :: utf16Decode rest
    else if 55296 ≤ u && u ≤ 57343 then Char.ofNat 65533 :: utf16Decode (v :: rest)
    else Char.ofNat u :: utf16Decode (v :: rest)

/-- Scan a JSON string after its opening quote. `acc` holds the code units read
so far, newest first; `n` counts the characters consumed. Returns the string and
the number of characters consumed, closing quote included. -/
def scanString : List Nat → List Nat → Nat → Option (String × Nat)
  | [], _, _ => none
  | c :: cs, acc, n =>
    if c == 34 then some (String.mk (utf16Decode acc.reverse), n + 1)
    else if c == 92 then
      match cs with
      | [] => none
      | e :: es =>
        if e == 34 then scanString es (34 :: acc) (n + 2)
        else if e == 92 then scanString es (92 :: acc) (n + 2)
        else if e == 47 then scanString es (47 :: acc) (n + 2)
        else if e == 98 then scanString es (8 :: acc) (n + 2)
        else if e == 102 then scanString es (12 :: acc) (n + 2)
        else if e == 110 then scanString es (10 :: acc) (n + 2)
        else if e == 114 then scanString es (13 :: acc) (n + 2)
        else if e == 116 then scanString es (9 :: acc) (n + 2)
        else if e == 117 then
          match es with
          | a :: b :: c2 :: d :: rest =>
            match hexVal a, hexVal b, hexVal c2, hexVal d with
            | some x, some y, some z, some w =>
              scanString rest ((x * 4096 + y * 256 + z * 16 + w) :: acc) (n + 6)
            | _, _, _, _ => none
          | _ => none
        else none
    else if c < 32 then none
    else scanString cs ((utf16Units c).reverse ++ acc) (n + 1)

/-- Split off the longest run of leading decimal digits. -/
def takeDigits : List Nat → List Nat × List Nat
  | [] => ([], [])
  | c :: cs => if isDigit c then ((takeDigits cs).1.cons c, (takeDigits cs).2) else ([], c :: cs)

/-- Value of a run of decimal digits. -/
def digitsVal (ds : List Nat) : Nat := ds.foldl (fun a d => a * 10 + (d - 48)) 0

/-- Scan the exponent part `[eE][+-]?[0-9]+` if there is one: the exponent and
the characters consumed. -/
def scanExp : List Nat → Option (Int × Nat)
  | [] => some (0, 0)
  | c :: cs =>
    if c == 101 || c == 69 then
      match cs with
      | [] => none
      | s :: ss =>
        if s == 43 || s == 45 then
          let ds := (takeDigits ss).1
          if ds.isEmpty then none
          else some (if s == 45 then - (digitsVal ds : Int) else (digitsVal ds : Int), ds.length + 2)
        else
          let ds := (takeDigits (s :: ss)).1
          if ds.isEmpty then none else some ((digitsVal ds : Int), ds.length + 1)
    else some (0, 0)

/-- Scan the fraction part `.[0-9]+` if there is one: the digits and the
characters consumed. -/
def scanFrac : List Nat → Option (List Nat × Nat)
  | [] => some ([], 0)
  | c :: cs =>
    if c == 46 then
      let ds := (takeDigits cs).1
      if ds.isEmpty then none else some (ds, ds.length + 1)
    else some ([], 0)

/-- Scan a JSON number `-?(0|[1-9][0-9]*)(.[0-9]+)?([eE][+-]?[0-9]+)?`: the
token and the characters consumed. -/
def scanNumber (cs : List Nat) : Option (Token × Nat) :=
  let neg := cs.head? == some 45
  let body := if neg then cs.drop 1 else cs
  let k := if neg then 1 else 0
  match body with
  | [] => none
  | d :: ds =>
    if !isDigit d then none
    else
      let ip := if d == 48 then [d] else d :: (takeDigits ds).1
      match scanFrac (body.drop ip.length) with
      | none => none
      | some (fp, nf) =>
        match scanExp (body.drop (ip.length + nf)) with
        | none => none
        | some (e, ne) =>
          some (Token.num neg (digitsVal (ip ++ fp)) (e - (fp.length : Int)), k + ip.length + nf + ne)

/-- Whether `p` is an initial segment of `cs`. -/
def startsWith (p : List Nat) : List Nat → Bool
  | cs => p.isPrefixOf cs

/-- Lexer. Walks the text once; `skip` is the number of characters still
belonging to the token emitted last. -/
def lexAux : List Nat → Nat → Option (List Token)
  | [], _ => some []
  | _ :: cs, skip + 1 => lexAux cs skip
  | c :: cs, 0 =>
    if isWs c then lexAux cs 0
    else if c == 123 then (lexAux cs 0).map (List.cons Token.lbrace)
    else if c == 125 then (lexAux cs 0).map (List.cons Token.rbrace)
    else if c == 91 then (lexAux cs 0).map (List.cons Token.lbrack)
    else if c == 93 then (lexAux cs 0).map (List.cons Token.rbrack)
    else if c == 58 then (lexAux cs 0).map (List.cons Token.colon)
    else if c == 44 then (lexAux cs 0).map (List.cons Token.comma)
    else if c == 34 then
      match scanString cs [] 0 with
      | none => none
      | some (s, n) => (lexAux cs n).map (List.cons (Token.str s))
    else if c == 45 || isDigit c then
      match scanNumber (c :: cs) with
      | none => none
      | some (t, n) => (lexAux cs (n - 1)).map (List.cons t)
    else if startsWith [110, 117, 108, 108] (c :: cs) then
      (lexAux cs 3).map (List.cons (Token.lit JVal.null))
    else if startsWith [116, 114, 117, 101] (c :: cs) then
      (lexAux cs 3).map (List.cons (Token.lit (JVal.bool true)))
    else if startsWith [102, 97, 108, 115, 101] (c :: cs) then
      (lexAux cs 4).map (List.cons (Token.lit (JVal.bool false)))
    else none

/-! ## JSON text: parser -/

/-- An open container: an array with the elements read so far (newest first),
or an object with the members read so far and the key whose value is being
read. -/
inductive Frame where
  | arr (rev : List JVal)
  | obj (rev : List (String × JVal)) (key : String)

/-- What the parser expects next. -/
inductive Mode where
  | value
  | arrFirst
  | objKey (first : Bool) (rev : List (String × JVal))
  | objColon (rev : List (String × JVal)) (key : String)
  | afterElem
  | afterMember (rev : List (String × JVal))
  | done (v : JVal)

/-- A value has been completed: hand it to the innermost open container. -/
def complete (v : JVal) : List Frame → List Frame × Mode
  | [] => ([], Mode.done v)
  | Frame.arr rev :: st => (Frame.arr (v :: rev) :: st, Mode.afterElem)
  | Frame.obj rev key :: st => (st, Mode.afterMember ((key, v) :: rev))

/-- Start of a value at token `t`. -/
def startValue (t : Token) (st : List Frame) : Option (List Frame × Mode) :=
  match t with
  | Token.lbrace => some (st, Mode.objKey true [])
  | Token.lbrack => some (Frame.arr [] :: st, Mode.arrFirst)
  | Token.str s => some (complete (JVal.str s) st)
  | Token.num n m e => some (complete (JVal.num n m e) st)
  | Token.lit v => some (complete v st)
  | _ => none

/-- One step of the pushdown parser. -/
def parseStep (t : Token) (st : List Frame) : Mode → Option (List Frame × Mode)
  | Mode.value => startValue t st
  | Mode.arrFirst =>
    match t, st with
    | Token.rbrack, Frame.arr _ :: st2 => some (complete (JVal.arr []) st2)
    | _, _ => startValue t st
  | Mode.objKey first rev =>
    match t with
    | Token.str k => some (st, Mode.objColon rev k)
    | Token.rbrace => if first then some (complete (JVal.obj []) st) else none
    | _ => none
  | Mode.objColon rev k =>
    match t with
    | Token.colon => some (Frame.obj rev k :: st, Mode.value)
    | _ => none
  | Mode.afterElem =>
    match t, st with
    | Token.comma, _ => some (st, Mode.value)
    | Token.rbrack, Frame.arr rev :: st2 => some (complete (JVal.arr rev.reverse) st2)
    | _, _ => none
  | Mode.afterMember rev =>
    match t with
    | Token.comma => some (st, Mode.objKey false rev)
    | Token.rbrace => some (complete (JVal.obj rev.reverse) st)
    | _ => none
  | Mode.done _ => none

/-- Run the pushdown parser over the tokens. -/
def parseTokens : List Token → List Frame → Mode → Option JVal
  | [], _, Mode.done v => some v
  | [], _, _ => none
  | t :: ts, st, m =>
    match parseStep t st m with
    | none => none
    | some (st2, m2) => parseTokens ts st2 m2

/-- Model of `JSON.parse(text)` without reviver: `none` is a thrown
`SyntaxError`. -/
def JSON.parse (text : String) : Option JVal :=
  match lexAux (text.toList.map Char.toNat) 0 with
  | none => none
  | some ts => parseTokens ts [] Mode.value

/-! ## JavaScript operations on parsed values -/

/-- Whether the double nearest to `mant * 10^exp10` is not zero: the mantissa
is not zero and the value lies strictly above `2^-1075`, half the least
subnormal (a tie rounds to even, which is zero). -/
def numNonzero (mant : Nat) (exp10 : Int) : Bool :=
  mant != 0 && (0 ≤ exp10 || decide (10 ^ exp10.natAbs < mant * 2 ^ 1075))

/-- Model of `ToBoolean`. -/
def truthy : JVal → Bool
  | JVal.null => false
  | JVal.bool b => b
  | JVal.num _ m e => numNonzero m e
  | JVal.str s => s != ""
  | JVal.arr _ => true
  | JVal.obj _ => true

/-- Model of `ToBoolean` on a value that may be `undefined`. -/
def truthyOpt : Option JVal → Bool
  | none => false
  | some v => truthy v

/-- Model of the `typeof` operator. -/
def typeOf : Option JVal → String
  | none => "undefined"
  | some (JVal.bool _) => "boolean"
  | some (JVal.num _ _ _) => "number"
  | some (JVal.str _) => "string"
  | some _ => "object"

/-- Own property `name` of a parsed object: the last member with that key. -/
def ownProp (members : List (String × JVal)) (name : String) : Option JVal :=
  (members.reverse.find? (fun kv => kv.1 == name)).map Prod.snd

/-- Model of reading property `name` of a value produced by `JSON.parse`, for
the names this program reads (`username`, `password_hash`, `error`, `token`),
none of which is defined on a built-in prototype. Reading a property of `null`
throws a `TypeError`; a primitive or an array has no such property. -/
def getField : JVal → String → Except JsError (Option JVal)
  | JVal.null, _ => Except.error JsError.typeError
  | JVal.obj ms, name => Except.ok (ownProp ms name)
  | _, _ => Except.ok none

mutual
/-- Model of `ToString` on a parsed value. `nts` is `Number::toString`. A plain
object has `Object.prototype.toString` unless an own member `toString` shadows
it; a member is never callable, and `valueOf` then yields no primitive, so the
conversion throws. An array is joined with commas. -/
def toStr (nts : Bool → Nat → Int → String) : JVal → Except JsError String
  | JVal.null => Except.ok "null"
  | JVal.bool b => Except.ok (if b then "true" else "false")
  | JVal.num n m e => Except.ok (nts n m e)
  | JVal.str s => Except.ok s
  | JVal.arr xs => (toStrItems nts xs).map (String.intercalate ",")
  | JVal.obj ms =>
    if (ownProp ms "toString").isSome then
      Except.error JsError.typeError
    else Except.ok "[object Object]"
/-- The strings `Array.prototype.join` puts between the commas: `null` gives the
empty string. -/
def toStrItems (nts : Bool → Nat → Int → String) : List JVal → Except JsError (List String)
  | [] => Except.ok []
  | JVal.null :: xs => (toStrItems nts xs).map (List.cons "")
  | x :: xs =>
    match toStr nts x with
    | Except.error e => Except.error e
    | Except.ok a => (toStrItems nts xs).map (List.cons a)
end

/-- Model of `ToString` on a value that may be `undefined`. -/
def toStrOpt (nts : Bool → Nat → Int → String) : Option JVal → Except JsError String
  | none => Except.ok "undefined"
  | some v => toStr nts v

/-! ## `JSON.stringify` of the flat objects this program sends -/

/-- Lowercase hexadecimal digit. -/
def hexDigit (d : Nat) : Char := Nat.digitChar d

/-- Model of `QuoteJSONString` on one code point. -/
def quoteChar (c : Char) : List Char :=
  let n := c.toNat
  if n == 8 then [Char.ofNat 92, Char.ofNat 98]
  else if n == 9 then [Char.ofNat 92, Char.ofNat 116]
  else if n == 10 then [Char.ofNat 92, Char.ofNat 110]
  else if n == 12 then [Char.ofNat 92, Char.ofNat 102]
  else if n == 13 then [Char.ofNat 92, Char.ofNat 114]
  else if n == 34 then [Char.ofNat 92, Char.ofNat 34]
  else if n == 92 then [Char.ofNat 92, Char.ofNat 92]
  else if n < 32 then
    [Char.ofNat 92, Char.ofNat 117, Char.ofNat 48, Char.ofNat 48, hexDigit (n / 16), hexDigit (n % 16)]
  else [c]

/-- Model of `JSON.stringify` on a string. -/
def JSON.quote (s : String) : String :=
  String.mk ([Char.ofNat 34] ++ s.toList.flatMap quoteChar ++ [Char.ofNat 34])

/-- Model of `JSON.stringify` on an object literal whose values are strings. -/
def JSON.stringify (members : List (String × String)) : String :=
  "\x7b" ++ String.intercalate "," (members.map (fun kv => JSON.quote kv.1 ++ ":" ++ JSON.quote kv.2)) ++ "\x7d"

/-! ## SHA-256 (FIPS 180-4), as `crypto.subtle.digest` and `crypto.createHash` compute it -/

/-- UTF-8 bytes of one code point. -/
def utf8Bytes (c : Nat) : List Nat :=
  if c < 128 then [c]
  else if c < 2048 then [192 + c / 64, 128 + c % 64]
  else if c < 65536 then [224 + c / 4096, 128 + c / 64 % 64, 128 + c % 64]
  else [240 + c / 262144, 128 + c / 4096 % 64, 128 + c / 64 % 64, 128 + c % 64]

/-- Model of `new TextEncoder().encode(message)`: the UTF-8 bytes. -/
def TextEncoder.encode (message : String) : List Nat :=
  (message.toList.map Char.toNat).flatMap utf8Bytes

namespace SHA256

/-- Round constants. -/
def K : List Nat := [
  0x428a2f98, 0x71374491, 0xb5c0fbcf, 0xe9b5dba5, 0x3956c25b, 0x59f111f1, 0x923f82a4, 0xab1c5ed5,
  0xd807aa98, 0x12835b01, 0x243185be, 0x550c7dc3, 0x72be5d74, 0x80deb1fe, 0x9bdc06a7, 0xc19bf174,
  0xe49b69c1, 0xefbe4786, 0x0fc19dc6, 0x240ca1cc, 0x2de92c6f, 0x4a7484aa, 0x5cb0a9dc, 0x76f988da,
  0x983e5152, 0xa831c66d, 0xb00327c8, 0xbf597fc7, 0xc6e00bf3, 0xd5a79147, 0x06ca6351, 0x14292967,
  0x27b70a85, 0x2e1b2138, 0x4d2c6dfc, 0x53380d13, 0x650a7354, 0x766a0abb, 0x81c2c92e, 0x92722c85,
  0xa2bfe8a1, 0xa81a664b, 0xc24b8b70, 0xc76c51a3, 0xd192e819, 0xd6990624, 0xf40e3585, 0x106aa070,
  0x19a4c116, 0x1e376c08, 0x2748774c, 0x34b0bcb5, 0x391c0cb3, 0x4ed8aa4a, 0x5b9cca4f, 0x682e6ff3,
  0x748f82ee, 0x78a5636f, 0x84c87814, 0x8cc70208, 0x90befffa, 0xa4506ceb, 0xbef9a3f7, 0xc67178f2]

/-- Reduction to 32 bits. -/
def w32 (x : Nat) : Nat := x % 4294967296

/-- Rotate a 32-bit word right by `n`. -/
def rotr (x n : Nat) : Nat := w32 ((x >>> n) ||| (x <<< (32 - n)))

/-- The function Ch. -/
def ch (x y z : Nat) : Nat := (x &&& y) ^^^ ((4294967295 - x) &&& z)

/-- The function Maj. -/
def maj (x y z : Nat) : Nat := (x &&& y) ^^^ (x &&& z) ^^^ (y &&& z)

/-- The function Sigma0. -/
def bsig0 (x : Nat) : Nat := rotr x 2 ^^^ rotr x 13 ^^^ rotr x 22

/-- The function Sigma1. -/
def bsig1 (x : Nat) : Nat := rotr x 6 ^^^ rotr x 11 ^^^ rotr x 25

/-- The function sigma0. -/
def ssig0 (x : Nat) : Nat := rotr x 7 ^^^ rotr x 18 ^^^ (x >>> 3)

/-- The function sigma1. -/
def ssig1 (x : Nat) : Nat := rotr x 17 ^^^ rotr x 19 ^^^ (x >>> 10)

/-- The eight working variables. -/
structure State where
  a : Nat
  b : Nat
  c : Nat
  d : Nat
  e : Nat
  f : Nat
  g : Nat
  h : Nat

/-- Initial hash value. -/
def init : State :=
  ⟨0x6a09e667, 0xbb67ae85, 0x3c6ef372, 0xa54ff53a, 0x510e527f, 0x9b05688c, 0x1f83d9ab, 0x5be0cd19⟩

/-- Big-endian 32-bit words of a block of bytes. -/
def words : List Nat → List Nat
  | a :: b :: c :: d :: rest => (a * 16777216 + b * 65536 + c * 256 + d) :: words rest
  | _ => []

/-- Extend the message schedule by `n` words; `rev` holds it newest first. -/
def extend : Nat → List Nat → List Nat
  | 0, rev => rev
  | n + 1, rev =>
    extend n (w32 (ssig1 (rev.getD 1 0) + rev.getD 6 0 + ssig0 (rev.getD 14 0) + rev.getD 15 0) :: rev)

/-- The 64-word message schedule of a block. -/
def schedule (block : List Nat) : List Nat := (extend 48 (words block).reverse).reverse

/-- One round, on the constant and the schedule word of that round. -/
def round (s : State) (kw : Nat × Nat) : State :=
  let t1 := s.h + bsig1 s.e + ch s.e s.f s.g + kw.1 + kw.2
  let t2 := bsig0 s.a + maj s.a s.b s.c
  ⟨w32 (t1 + t2), s.a, s.b, s.c, w32 (s.d + t1), s.e, s.f, s.g⟩

/-- Compression of one block into the hash value. -/
def compress (s : State) (block : List Nat) : State :=
  let r := (K.zip (schedule block)).foldl round s
  ⟨w32 (s.a + r.a), w32 (s.b + r.b), w32 (s.c + r.c), w32 (s.d + r.d),
   w32 (s.e + r.e), w32 (s.f + r.f), w32 (s.g + r.g), w32 (s.h + r.h)⟩

/-- The `n` low bytes of `x`, most significant first. -/
def beBytes : Nat → Nat → List Nat
  | 0, _ => []
  | n + 1, x => (x >>> (8 * n)) % 256 :: beBytes n x

/-- Padding: `0x80`, zeros up to 56 modulo 64, then the bit length on 64 bits. -/
def pad (msg : List Nat) : List Nat :=
  msg ++ [128] ++ List.replicate ((119 - msg.length % 64) % 64) 0
    ++ beBytes 8 (8 * msg.length % 18446744073709551616)

/-- The 64-byte blocks of a padded message. -/
def blocks (p : List Nat) : List (List Nat) :=
  (List.range (p.length / 64)).map (fun i => (p.drop (64 * i)).take 64)

/-- The SHA-256 digest of a byte string, as bytes. -/
def digest (msg : List Nat) : List Nat :=
  let s := (blocks (pad msg)).foldl compress init
  [s.a, s.b, s.c, s.d, s.e, s.f, s.g, s.h].flatMap (beBytes 4)

end SHA256

/-! ## `assets/js/app.js`: the client hasher -/

/-- Model of `Number.prototype.toString(16)` on a byte. -/
def toString16 (b : Nat) : String := String.mk (Nat.toDigits 16 b)

/-- Model of `String.prototype.padStart(n, c)` with a one-character filler. -/
def padStart (s : String) (n : Nat) (c : Char) : String :=
  String.mk (List.replicate (n - s.length) c) ++ s

/-- The client hasher of `app.js`:
`bytes.map(b => b.toString(16).padStart(2,'0')).join('')` over the bytes of
`crypto.subtle.digest('SHA-256', new TextEncoder().encode(message))`. -/
def sha256hex (message : String) : String :=
  String.join ((SHA256.digest (TextEncoder.encode message)).map (fun b => padStart (toString16 b) 2 '0'))

/-! ## `netlify/functions/login.js`: the credential verifier -/

/-- What the module takes from its surroundings: the environment variable and
the two libraries. `hashSync` is `bcrypt.hashSync` as it runs at cold start
(its salt is drawn then), `compare` is what `bcrypt.compare` resolves to on two
strings, `sign` is `jwt.sign` on the payload `{username, role}`, the secret and
the `expiresIn` option, `numberToString` is the engine's `Number::toString`. -/
structure Env where
  JWT_SECRET : Option String
  hashSync : String → Nat → String
  compare : String → String → Bool
  sign : String → String → String → String → String
  numberToString : Bool → Nat → Int → String

/-- The constant `SECRET`: `process.env.JWT_SECRET || 'changeme_demo_secret'`. -/
def SECRET (env : Env) : String :=
  match env.JWT_SECRET with
  | some s => if s != "" then s else "changeme_demo_secret"
  | none => "changeme_demo_secret"

/-- The constant `demoUsername`. -/
def demoUsername : String := "demo"

/-- The constant `demoRawPassword`. -/
def demoRawPassword : String := "Password123!"

/-- The function `sha256hexNode`:
`crypto.createHash('sha256').update(str, 'utf8').digest('hex')`. -/
def sha256hexNode (str : String) : String :=
  String.join ((SHA256.digest (TextEncoder.encode str)).map
    (fun b => String.mk [hexDigit (b / 16), hexDigit (b % 16)]))

/-- The constant `demoClientHash`. -/
def demoClientHash : String := sha256hexNode demoRawPassword

/-- The constant `demoStoredBcryptHash`. -/
def demoStoredBcryptHash (env : Env) : String := env.hashSync demoClientHash 10

/-- A record of the user store. -/
structure User where
  username : String
  password_bcrypt : String
  role : String
deriving DecidableEq, Repr

/-- The constant `USERS`: the own properties of the object literal. -/
def USERS (env : Env) : List (String × User) :=
  [(demoUsername, { username := demoUsername, password_bcrypt := demoStoredBcryptHash env, role := "demo" })]

/-- Names of the properties every plain object inherits from
`Object.prototype`. Each is a function, or for `__proto__` the prototype object
itself: truthy, and without a `password_bcrypt` property. -/
def objectPrototypeNames : List String :=
  ["constructor", "__defineGetter__", "__defineSetter__", "hasOwnProperty", "__lookupGetter__",
   "__lookupSetter__", "isPrototypeOf", "propertyIsEnumerable", "toString", "valueOf", "__proto__",
   "toLocaleString"]

/-- What `USERS[key]` evaluates to. -/
inductive Slot where
  | own (user : User) : Slot
  | inherited (name : String) : Slot
  | undefined : Slot
deriving DecidableEq, Repr

/-- Model of the property read `USERS[key]` on a plain object: an own property,
else one inherited from `Object.prototype`, else `undefined`. -/
def usersGet (users : List (String × User)) (key : String) : Slot :=
  match users.find? (fun kv => kv.1 == key) with
  | some kv => Slot.own kv.2
  | none => if objectPrototypeNames.contains key then Slot.inherited key else Slot.undefined

/-- The event the platform passes to the handler: the fields it reads. A `body`
that is absent or `null` is `none`. -/
structure Event where
  httpMethod : Option String
  body : Option String

/-- The object the handler returns. -/
structure Response where
  statusCode : Nat
  body : String
deriving DecidableEq, Repr

/-- How a call of the `async` handler ends. -/
inductive Outcome where
  | returned (r : Response) : Outcome
  | threw (e : JsError) : Outcome
deriving DecidableEq, Repr

/-- The calls the handler makes, in order. -/
inductive Effect where
  | jsonParse (text : String) : Effect
  | usersLookup (key : String) : Effect
  | delay (ms : Nat) : Effect
  | bcryptCompare (s : Option JVal) (hash : Option String) : Effect
  | jwtSign (username role secret expiresIn : String) : Effect

/-- A run of the handler: the calls made and how it ended. -/
structure Run where
  trace : List Effect
  outcome : Outcome

/-- The error `bcrypt.compare(s, hash)` of bcryptjs rejects with when an
argument is not a string. -/
def illegalArguments (s : Option JVal) (hash : Option String) : JsError :=
  JsError.error ("Illegal arguments: " ++ typeOf s ++ ", " ++ (if hash.isSome then "string" else "undefined"))

/-- Model of `bcrypt.compare(s, hash)` of bcryptjs in promise form: it rejects
with `Illegal arguments` unless both arguments are strings. -/
def bcryptCompare (env : Env) (s : Option JVal) (hash : Option String) : Except JsError Bool :=
  match s, hash with
  | some (JVal.str p), some h => Except.ok (env.compare p h)
  | _, _ => Except.error (illegalArguments s hash)

/-- The expression `event.body || '{}'`. -/
def bodyText (event : Event) : String :=
  match event.body with
  | some b => if b != "" then b else "\x7b\x7d"
  | none => "\x7b\x7d"

/-- The function `exports.handler` of `login.js`. -/
def handler (env : Env) (event : Event) : Run :=
  if event.httpMethod != some "POST" then
    ⟨[], Outcome.returned ⟨405, JSON.stringify [("error", "Method not allowed")]⟩⟩
  else
    let t1 := [Effect.jsonParse (bodyText event)]
    match JSON.parse (bodyText event) with
    | none => ⟨t1, Outcome.returned ⟨400, JSON.stringify [("error", "Invalid JSON")]⟩⟩
    | some body =>
      match getField body "username", getField body "password_hash" with
      | Except.error e, _ => ⟨t1, Outcome.threw e⟩
      | _, Except.error e => ⟨t1, Outcome.threw e⟩
      | Except.ok username, Except.ok password_hash =>
        if !truthyOpt username || !truthyOpt password_hash then
          ⟨t1, Outcome.returned ⟨400, JSON.stringify [("error", "username and password_hash required")]⟩⟩
        else
          match toStrOpt env.numberToString username with
          | Except.error e => ⟨t1, Outcome.threw e⟩
          | Except.ok key =>
            let t2 := t1 ++ [Effect.usersLookup key]
            match usersGet (USERS env) key with
            | Slot.undefined =>
              ⟨t2 ++ [Effect.delay 300],
                Outcome.returned ⟨401, JSON.stringify [("error", "Invalid credentials")]⟩⟩
            | Slot.inherited _ =>
              ⟨t2 ++ [Effect.bcryptCompare password_hash none],
                Outcome.threw (illegalArguments password_hash none)⟩
            | Slot.own user =>
              let t3 := t2 ++ [Effect.bcryptCompare password_hash (some user.password_bcrypt)]
              match bcryptCompare env password_hash (some user.password_bcrypt) with
              | Except.error e => ⟨t3, Outcome.threw e⟩
              | Except.ok false =>
                ⟨t3, Outcome.returned ⟨401, JSON.stringify [("error", "Invalid credentials")]⟩⟩
              | Except.ok true =>
                let token := env.sign user.username user.role (SECRET env) "2h"
                ⟨t3 ++ [Effect.jwtSign user.username user.role (SECRET env) "2h"],
                  Outcome.returned ⟨200, JSON.stringify [("token", token), ("username", user.username)]⟩⟩

/-! ## `assets/js/app.js`: the submit listener -/

/-- White space and line terminators, as `String.prototype.trim` strips them. -/
def isJsSpace (c : Char) : Bool :=
  let n := c.toNat
  [9, 10, 11, 12, 13, 32, 160, 5760, 8232, 8233, 8239, 8287, 12288, 65279].contains n
    || (8192 ≤ n && n ≤ 8202)

/-- Model of `String.prototype.trim`. -/
def jsTrim (s : String) : String :=
  String.mk (((s.toList.dropWhile isJsSpace).reverse.dropWhile isJsSpace).reverse)

/-- What `fetch` resolves to: the fields the listener reads, `text` being the
decoded body that `res.json()` parses. -/
structure HttpResponse where
  status : Nat
  statusText : String
  text : String

/-- The getter `res.ok`: the status is in 200..299. -/
def HttpResponse.ok (res : HttpResponse) : Bool := 200 ≤ res.status && res.status ≤ 299

/-- What the page takes from the browser: `fetch` on the URL, the method and
the request body (`none` is a rejected promise, a request that never
completes), and the engine's `Number::toString`. -/
structure Browser where
  fetch : String → String → String → Option HttpResponse
  numberToString : Bool → Nat → Int → String

/-- What the listener does to the page, in order. -/
inductive PageEffect where
  | setTextContent (s : String) : PageEffect
  | fetch (url method body : String) : PageEffect
  | setInnerHTML (html : String) : PageEffect
  | setItem (key value : String) : PageEffect
  | consoleError (e : JsError) : PageEffect
deriving DecidableEq, Repr

/-- The template of the error message. -/
def errorSpan (text : String) : String :=
  "<span style=\"color:#d9534f\">Error: " ++ text ++ "</span>"

/-- The template of the success message. -/
def successSpan (name : String) : String :=
  "<span style=\"color:green\">Autenticación exitosa — Bienvenido " ++ name ++ "</span>"

/-- The `catch` block of the listener. -/
def onCatch (e : JsError) : List PageEffect :=
  [PageEffect.consoleError e, PageEffect.setInnerHTML "<span style=\"color:#d9534f\">Error de conexión</span>"]

/-- The value of `err` in the listener: what `res.json()` resolves to, or the
default of its `catch` when the body is not JSON. -/
def errorBody (res : HttpResponse) : JVal :=
  match JSON.parse res.text with
  | some v => v
  | none => JVal.obj [("error", JVal.str "unknown")]

/-- The branch `if (!res.ok)` of the listener. -/
def onFailure (b : Browser) (res : HttpResponse) : List PageEffect :=
  match getField (errorBody res) "error" with
  | Except.error e => onCatch e
  | Except.ok field =>
    if truthyOpt field then
      match toStrOpt b.numberToString field with
      | Except.error e => onCatch e
      | Except.ok text => [PageEffect.setInnerHTML (errorSpan text)]
    else [PageEffect.setInnerHTML (errorSpan res.statusText)]

/-- The rest of the `try` block, after a response with `res.ok`. -/
def onSuccess (b : Browser) (res : HttpResponse) : List PageEffect :=
  match JSON.parse res.text with
  | none => onCatch JsError.syntaxError
  | some payload =>
    match getField payload "token" with
    | Except.error e => onCatch e
    | Except.ok token =>
      match toStrOpt b.numberToString token with
      | Except.error e => onCatch e
      | Except.ok tokenText =>
        PageEffect.setItem "gategroup_demo_token" tokenText ::
          match getField payload "username" with
          | Except.error e => onCatch e
          | Except.ok name =>
            match toStrOpt b.numberToString name with
            | Except.error e => onCatch e
            | Except.ok nameText => [PageEffect.setInnerHTML (successSpan nameText)]

/-- The `submit` listener of `loginForm`, on the values of the two fields. -/
def submit (b : Browser) (usernameValue passwordValue : String) : List PageEffect :=
  let user := jsTrim usernameValue
  let pass := passwordValue
  let clientHash := sha256hex pass
  let request := JSON.stringify [("username", user), ("password_hash", clientHash)]
  [PageEffect.setTextContent "Procesando...", PageEffect.fetch "/.netlify/functions/login" "POST" request] ++
    match b.fetch "/.netlify/functions/login" "POST" request with
    | none => onCatch JsError.typeError
    | some res => if !res.ok then onFailure b res else onSuccess b res

/-! ## A stand-in environment, for running the code on concrete requests -/

/-- An environment to evaluate the handler in: no `JWT_SECRET`, a `bcrypt` that
keeps its input behind a marker and compares exactly, a `jwt.sign` that lists
its arguments, a `Number::toString` that prints the mantissa. -/
def toyEnv : Env where
  JWT_SECRET := none
  hashSync := fun s _ => "$2a$10$" ++ s
  compare := fun s h => h == "$2a$10$" ++ s
  sign := fun u r k e => "jwt(" ++ u ++ "," ++ r ++ "," ++ k ++ "," ++ e ++ ")"
  numberToString := fun _ m _ => Nat.repr m

/-- A browser to evaluate the listener in, answering every request with `res`. -/
def toyBrowser (res : HttpResponse) : Browser where
  fetch := fun _ _ _ => some res
  numberToString := fun _ m _ => Nat.repr m

/-! ## Properties -/

set_option maxRecDepth 100000

theorem parse_empty : JSON.parse "" = none := rfl

theorem stringify_method : JSON.stringify [("error", "Method not allowed")]
    = "\x7b\"error\":\"Method not allowed\"\x7d" := by decide

theorem stringify_invalid_json : JSON.stringify [("error", "Invalid JSON")]
    = "\x7b\"error\":\"Invalid JSON\"\x7d" := by decide

theorem stringify_required : JSON.stringify [("error", "username and password_hash required")]
    = "\x7b\"error\":\"username and password_hash required\"\x7d" := by decide

theorem stringify_credentials : JSON.stringify [("error", "Invalid credentials")]
    = "\x7b\"error\":\"Invalid credentials\"\x7d" := by decide

theorem bodyText_of_nonempty (event : Event) (b : String) (hb : event.body = some b) (hne : b ≠ "") :
    bodyText event = b := by
  simp [bodyText, hb, hne]

/-- C5. A request whose method is not exactly POST gets 405 with the body
`\x7b"error":"Method not allowed"\x7d`, whatever its body is, and the handler makes
no call at all before returning: no parse, no lookup, no delay, no comparison. -/
theorem handler_method_not_allowed (env : Env) (event : Event)
    (h : event.httpMethod ≠ some "POST") :
    (handler env event).outcome
        = Outcome.returned ⟨405, "\x7b\"error\":\"Method not allowed\"\x7d"⟩
      ∧ (handler env event).trace = [] := by
  simp [handler, h, stringify_method]

theorem handler_method_not_allowed_witness :
    (some "GET" : Option String) ≠ some "POST"
      ∧ (handler toyEnv ⟨some "GET", some "not json"⟩).outcome
          = Outcome.returned ⟨405, "\x7b\"error\":\"Method not allowed\"\x7d"⟩
      ∧ (handler toyEnv ⟨some "GET", some "not json"⟩).trace = [] :=
  ⟨by decide, handler_method_not_allowed toyEnv ⟨some "GET", some "not json"⟩ (by decide)⟩

theorem bodyText_of_empty (event : Event) (hb : event.body = none ∨ event.body = some "") :
    bodyText event = "\x7b\x7d" := by
  rcases hb with hb | hb <;> simp [bodyText, hb]

theorem parse_empty_object : JSON.parse "\x7b\x7d" = some (JVal.obj []) := rfl

/-- C6, as stated, fails on the empty body: the text `""` is not parseable as
JSON, yet a POST carrying it gets the 400 of the shape check, not the 400
`Invalid JSON`, because the handler parses `event.body || "\x7b\x7d"`. -/
theorem invalid_json_empty_body_counterexample :
    JSON.parse "" = none
      ∧ (handler toyEnv ⟨some "POST", some ""⟩).outcome
          = Outcome.returned ⟨400, "\x7b\"error\":\"username and password_hash required\"\x7d"⟩
      ∧ (handler toyEnv ⟨some "POST", some ""⟩).outcome
          ≠ Outcome.returned ⟨400, "\x7b\"error\":\"Invalid JSON\"\x7d"⟩ := by
  refine ⟨rfl, ?_, ?_⟩ <;> decide

/-- C6, amended. A POST whose body is a non-empty string that is not parseable
as JSON gets 400 with the body `\x7b"error":"Invalid JSON"\x7d`; a POST whose body
is absent or the empty string is read as the empty object and gets 400 with the
body `\x7b"error":"username and password_hash required"\x7d`. -/
theorem handler_invalid_json (env : Env) (event : Event)
    (hm : event.httpMethod = some "POST") :
    (∀ b : String, event.body = some b → b ≠ "" → JSON.parse b = none →
        (handler env event).outcome
          = Outcome.returned ⟨400, "\x7b\"error\":\"Invalid JSON\"\x7d"⟩)
      ∧ ((event.body = none ∨ event.body = some "") →
        (handler env event).outcome
          = Outcome.returned ⟨400, "\x7b\"error\":\"username and password_hash required\"\x7d"⟩) := by
  constructor
  · intro b hb hne hp
    simp [handler, hm, bodyText_of_nonempty event b hb hne, hp, stringify_invalid_json]
  · intro hb
    simp [handler, hm, bodyText_of_empty event hb, parse_empty_object, getField, ownProp,
      truthyOpt, stringify_required]

theorem handler_invalid_json_witness :
    (some "POST" : Option String) = some "POST"
      ∧ JSON.parse "not json" = none
      ∧ (handler toyEnv ⟨some "POST", some "not json"⟩).outcome
          = Outcome.returned ⟨400, "\x7b\"error\":\"Invalid JSON\"\x7d"⟩ :=
  ⟨rfl, rfl, (handler_invalid_json toyEnv ⟨some "POST", some "not json"⟩ rfl).1 "not json" rfl
    (by decide) rfl⟩

theorem usersGet_own (env : Env) (key : String) (user : User)
    (h : usersGet (USERS env) key = Slot.own user) :
    key = "demo" ∧ user = ⟨"demo", demoStoredBcryptHash env, "demo"⟩ := by
  unfold usersGet USERS at h
  by_cases hk : demoUsername = key
  · simp [hk] at h
    exact ⟨by rw [← hk]; rfl, by rw [← h, ← hk]; rfl⟩
  · simp [hk] at h
    split at h <;> simp at h

/-- C7. A POST whose body parses to a JSON object in which `username` or
`password_hash` is missing or the empty string gets 400 with the body
`\x7b"error":"username and password_hash required"\x7d`, and the only call the
handler has made is `JSON.parse`: no lookup in `USERS`, no `delay`, no
`bcrypt.compare`. -/
theorem handler_fields_required (env : Env) (event : Event) (b : String)
    (ms : List (String × JVal))
    (hm : event.httpMethod = some "POST") (hb : event.body = some b)
    (hp : JSON.parse b = some (JVal.obj ms))
    (hf : ownProp ms "username" = none ∨ ownProp ms "username" = some (JVal.str "")
      ∨ ownProp ms "password_hash" = none ∨ ownProp ms "password_hash" = some (JVal.str "")) :
    (handler env event).outcome
        = Outcome.returned ⟨400, "\x7b\"error\":\"username and password_hash required\"\x7d"⟩
      ∧ (handler env event).trace = [Effect.jsonParse b] := by
  have hne : b ≠ "" := by
    intro h0
    rw [h0, parse_empty] at hp
    exact Option.noConfusion hp
  have hfalsy : (!truthyOpt (ownProp ms "username") || !truthyOpt (ownProp ms "password_hash")) = true := by
    rcases hf with h | h | h | h <;> simp [h, truthyOpt, truthy]
  simp only [handler, hm, bodyText_of_nonempty event b hb hne, hp, getField]
  simp [hfalsy, stringify_required]

theorem handler_fields_required_witness :
    (handler toyEnv ⟨some "POST", some "\x7b\"username\":\"demo\"\x7d"⟩).outcome
        = Outcome.returned ⟨400, "\x7b\"error\":\"username and password_hash required\"\x7d"⟩
      ∧ (handler toyEnv ⟨some "POST", some "\x7b\"username\":\"demo\"\x7d"⟩).trace
        = [Effect.jsonParse "\x7b\"username\":\"demo\"\x7d"] :=
  handler_fields_required toyEnv ⟨some "POST", some "\x7b\"username\":\"demo\"\x7d"⟩
    "\x7b\"username\":\"demo\"\x7d" [("username", JVal.str "demo")] rfl rfl rfl
    (Or.inr (Or.inr (Or.inl rfl)))

theorem sha256hex_demo :
    sha256hex "Password123!" = "a109e36947ad56de1dca1cc49f0ef8ac9ad9a7b1aa0df41fb3c4cb73c1ff01ea" := by
  decide

theorem demoClientHash_eq :
    demoClientHash = "a109e36947ad56de1dca1cc49f0ef8ac9ad9a7b1aa0df41fb3c4cb73c1ff01ea" := by
  decide

theorem secret_absent (env : Env) (h : env.JWT_SECRET = none) :
    SECRET env = "changeme_demo_secret" := by
  simp [SECRET, h]

theorem secret_present (env : Env) (s : String) (h : env.JWT_SECRET = some s) (hne : s ≠ "") :
    SECRET env = s := by
  simp [SECRET, h, hne]

theorem success_run (env : Env) (event : Event) (b : String) (ms : List (String × JVal))
    (name p : String) (user : User)
    (hm : event.httpMethod = some "POST") (hb : event.body = some b)
    (hp : JSON.parse b = some (JVal.obj ms))
    (hu : ownProp ms "username" = some (JVal.str name))
    (hk : usersGet (USERS env) name = Slot.own user)
    (hh : ownProp ms "password_hash" = some (JVal.str p)) (hne : p ≠ "")
    (hc : env.compare p user.password_bcrypt = true) :
    (handler env event).outcome
        = Outcome.returned ⟨200, JSON.stringify
            [("token", env.sign user.username user.role (SECRET env) "2h"),
             ("username", user.username)]⟩
      ∧ (handler env event).trace
        = [Effect.jsonParse b, Effect.usersLookup name,
           Effect.bcryptCompare (some (JVal.str p)) (some user.password_bcrypt),
           Effect.jwtSign user.username user.role (SECRET env) "2h"] := by
  have hbne : b ≠ "" := by
    intro h0
    rw [h0, parse_empty] at hp
    exact Option.noConfusion hp
  have hname : name ≠ "" := by
    rw [(usersGet_own env name user hk).1]
    decide
  simp only [handler, hm, bodyText_of_nonempty event b hb hbne, hp, getField, hu, hh]
  simp [truthyOpt, truthy, hname, hne, toStrOpt, toStr, hk, bcryptCompare, hc]

theorem demo_request_parse :
    JSON.parse (JSON.stringify [("username", "demo"), ("password_hash", sha256hex "Password123!")])
      = some (JVal.obj [("username", JVal.str "demo"),
          ("password_hash", JVal.str "a109e36947ad56de1dca1cc49f0ef8ac9ad9a7b1aa0df41fb3c4cb73c1ff01ea")]) :=
  rfl

theorem usersGet_demo (env : Env) :
    usersGet (USERS env) "demo" = Slot.own ⟨"demo", env.hashSync demoClientHash 10, "demo"⟩ := rfl

/-- C8. A POST that names a known user (an own entry of `USERS`) and whose
`password_hash` is a non-empty string that `bcrypt.compare` matches against that
user's stored hash gets 200; the body is `JSON.stringify` of the object with
exactly the fields `token` and `username`, where `username` is the record's
username and `token` is `jwt.sign` of the record's `username` and `role` with
`SECRET` and `expiresIn` `2h`, and `jwt.sign` is the last call made. `SECRET`
is the fallback when `JWT_SECRET` is absent and is `JWT_SECRET` when that is set
to a non-empty value. The record is the demo one. In particular the request the
client sends for `demo` / `Password123!` gets 200 with `username` `demo`,
provided `bcrypt.compare` accepts the digest against the hash `bcrypt.hashSync`
made of it at cold start. -/
theorem handler_success (env : Env) (event : Event) (b : String) (ms : List (String × JVal))
    (name p : String) (user : User)
    (hm : event.httpMethod = some "POST") (hb : event.body = some b)
    (hp : JSON.parse b = some (JVal.obj ms))
    (hu : ownProp ms "username" = some (JVal.str name))
    (hk : usersGet (USERS env) name = Slot.own user)
    (hh : ownProp ms "password_hash" = some (JVal.str p)) (hne : p ≠ "")
    (hc : env.compare p user.password_bcrypt = true) :
    (handler env event).outcome
        = Outcome.returned ⟨200, JSON.stringify
            [("token", env.sign user.username user.role (SECRET env) "2h"),
             ("username", user.username)]⟩
      ∧ (handler env event).trace
        = [Effect.jsonParse b, Effect.usersLookup name,
           Effect.bcryptCompare (some (JVal.str p)) (some user.password_bcrypt),
           Effect.jwtSign user.username user.role (SECRET env) "2h"]
      ∧ (user.username = "demo" ∧ user.role = "demo")
      ∧ (env.JWT_SECRET = none → SECRET env = "changeme_demo_secret")
      ∧ (∀ s : String, env.JWT_SECRET = some s → s ≠ "" → SECRET env = s)
      ∧ (env.compare (sha256hex "Password123!") (env.hashSync (sha256hex "Password123!") 10) = true →
          (handler env ⟨some "POST", some (JSON.stringify
              [("username", "demo"), ("password_hash", sha256hex "Password123!")])⟩).outcome
            = Outcome.returned ⟨200, JSON.stringify
                [("token", env.sign "demo" "demo" (SECRET env) "2h"), ("username", "demo")]⟩) := by
  have hrun := success_run env event b ms name p user hm hb hp hu hk hh hne hc
  have hrec := (usersGet_own env name user hk).2
  refine ⟨hrun.1, hrun.2, ?_, secret_absent env, secret_present env, ?_⟩
  · rw [hrec]
    exact ⟨rfl, rfl⟩
  · intro hrt
    rw [sha256hex_demo] at hrt
    exact (success_run env _ _ _ "demo"
      "a109e36947ad56de1dca1cc49f0ef8ac9ad9a7b1aa0df41fb3c4cb73c1ff01ea"
      ⟨"demo", env.hashSync demoClientHash 10, "demo"⟩ rfl rfl demo_request_parse rfl
      (usersGet_demo env) rfl (by decide) (by rw [demoClientHash_eq]; exact hrt)).1

theorem handler_success_witness :
    (handler toyEnv ⟨some "POST", some
        "\x7b\"username\":\"demo\",\"password_hash\":\"a109e36947ad56de1dca1cc49f0ef8ac9ad9a7b1aa0df41fb3c4cb73c1ff01ea\"\x7d"⟩).outcome
      = Outcome.returned ⟨200, JSON.stringify
          [("token", toyEnv.sign "demo" "demo" (SECRET toyEnv) "2h"), ("username", "demo")]⟩ :=
  (handler_success toyEnv
    ⟨some "POST", some
      "\x7b\"username\":\"demo\",\"password_hash\":\"a109e36947ad56de1dca1cc49f0ef8ac9ad9a7b1aa0df41fb3c4cb73c1ff01ea\"\x7d"⟩
    "\x7b\"username\":\"demo\",\"password_hash\":\"a109e36947ad56de1dca1cc49f0ef8ac9ad9a7b1aa0df41fb3c4cb73c1ff01ea\"\x7d"
    [("username", JVal.str "demo"),
      ("password_hash", JVal.str "a109e36947ad56de1dca1cc49f0ef8ac9ad9a7b1aa0df41fb3c4cb73c1ff01ea")]
    "demo" "a109e36947ad56de1dca1cc49f0ef8ac9ad9a7b1aa0df41fb3c4cb73c1ff01ea"
    ⟨"demo", toyEnv.hashSync demoClientHash 10, "demo"⟩
    rfl rfl rfl rfl rfl rfl (by decide) (by decide)).1

theorem digest_length (msg : List Nat) : (SHA256.digest msg).length = 32 := by
  simp [SHA256.digest, SHA256.beBytes]

theorem beBytes_lt (n x b : Nat) (h : b ∈ SHA256.beBytes n x) : b < 256 := by
  induction n with
  | zero => simp [SHA256.beBytes] at h
  | succ n ih =>
    simp only [SHA256.beBytes, List.mem_cons] at h
    rcases h with h | h
    · rw [h]; exact Nat.mod_lt _ (by decide)
    · exact ih h

theorem digest_lt (msg : List Nat) (b : Nat) (h : b ∈ SHA256.digest msg) : b < 256 := by
  simp only [SHA256.digest, List.mem_flatMap] at h
  obtain ⟨w, _, hb⟩ := h
  exact beBytes_lt 4 w b hb

theorem byte_hex (b : Nat) (h : b < 256) :
    (padStart (toString16 b) 2 '0').data = [hexDigit (b / 16), hexDigit (b % 16)] := by
  interval_cases b <;> rfl

theorem hexDigit_mem (d : Nat) (h : d < 16) : hexDigit d ∈ "0123456789abcdef".data := by
  interval_cases d <;> decide

theorem sha256hex_data (message : String) :
    (sha256hex message).data
      = (SHA256.digest (TextEncoder.encode message)).flatMap
          (fun b => [hexDigit (b / 16), hexDigit (b % 16)]) := by
  unfold sha256hex
  rw [String.data_join, List.map_map]
  generalize hd : SHA256.digest (TextEncoder.encode message) = d
  have hlt : ∀ b ∈ d, b < 256 := fun b hb => digest_lt _ b (hd ▸ hb)
  clear hd
  induction d with
  | nil => rfl
  | cons x xs ih =>
    simp only [List.map_cons, List.flatten_cons, List.flatMap_cons, Function.comp]
    rw [byte_hex x (hlt x (List.mem_cons_self _ _)), ih (fun b hb => hlt b (List.mem_cons_of_mem _ hb))]

theorem hexPairs_length (d : List Nat) :
    (d.flatMap (fun b => [hexDigit (b / 16), hexDigit (b % 16)])).length = 2 * d.length := by
  induction d with
  | nil => rfl
  | cons x xs ih =>
    simp only [List.flatMap_cons, List.length_append, List.length_cons, List.length_nil, ih]
    omega

/-- C9. For every password string, the empty one included, the digest has 32
bytes and `sha256hex` returns exactly 64 characters, each one of
`0123456789abcdef`: the characters are, byte after byte in digest order, the
high and the low hexadecimal digit of the byte, in lower case, so a byte below
16 is written with a leading `0`. -/
theorem sha256hex_format (message : String) :
    (SHA256.digest (TextEncoder.encode message)).length = 32
      ∧ (sha256hex message).length = 64
      ∧ (∀ c ∈ (sha256hex message).toList, c ∈ "0123456789abcdef".toList)
      ∧ (sha256hex message).toList
          = (SHA256.digest (TextEncoder.encode message)).flatMap
              (fun b => [hexDigit (b / 16), hexDigit (b % 16)]) := by
  have hdata := sha256hex_data message
  have hlen := digest_length (TextEncoder.encode message)
  refine ⟨hlen, ?_, ?_, hdata⟩
  · show (sha256hex message).data.length = 64
    rw [hdata, hexPairs_length, hlen]
  · intro c hc
    have hc2 : c ∈ (sha256hex message).data := hc
    rw [hdata, List.mem_flatMap] at hc2
    obtain ⟨b, hb, hcb⟩ := hc2
    have hb256 := digest_lt _ b hb
    simp only [List.mem_cons, List.mem_singleton, List.not_mem_nil, or_false] at hcb
    rcases hcb with h | h
    · rw [h]
      exact hexDigit_mem _ (by omega)
    · rw [h]
      exact hexDigit_mem _ (Nat.mod_lt _ (by decide))

theorem truthy_str (s : String) : truthy (JVal.str s) = (s != "") := rfl

theorem unknown_user_run (env : Env) (event : Event) (b : String) (ms : List (String × JVal))
    (name : String) (pw : JVal)
    (hm : event.httpMethod = some "POST") (hb : event.body = some b)
    (hp : JSON.parse b = some (JVal.obj ms))
    (hu : ownProp ms "username" = some (JVal.str name)) (hname : name ≠ "")
    (hh : ownProp ms "password_hash" = some pw) (hpw : truthy pw = true)
    (hk : usersGet (USERS env) name = Slot.undefined) :
    (handler env event).outcome
        = Outcome.returned ⟨401, "\x7b\"error\":\"Invalid credentials\"\x7d"⟩
      ∧ (handler env event).trace
        = [Effect.jsonParse b, Effect.usersLookup name, Effect.delay 300] := by
  have hbne : b ≠ "" := by
    intro h0
    rw [h0, parse_empty] at hp
    exact Option.noConfusion hp
  simp only [handler, hm, bodyText_of_nonempty event b hb hbne, hp, getField, hu, hh]
  simp [truthyOpt, truthy_str, hname, hpw, toStrOpt, toStr, hk, stringify_credentials]

theorem wrong_password_run (env : Env) (event : Event) (b : String) (ms : List (String × JVal))
    (name p : String) (user : User)
    (hm : event.httpMethod = some "POST") (hb : event.body = some b)
    (hp : JSON.parse b = some (JVal.obj ms))
    (hu : ownProp ms "username" = some (JVal.str name))
    (hk : usersGet (USERS env) name = Slot.own user)
    (hh : ownProp ms "password_hash" = some (JVal.str p)) (hne : p ≠ "")
    (hc : env.compare p user.password_bcrypt = false) :
    (handler env event).outcome
        = Outcome.returned ⟨401, "\x7b\"error\":\"Invalid credentials\"\x7d"⟩
      ∧ (handler env event).trace
        = [Effect.jsonParse b, Effect.usersLookup name,
           Effect.bcryptCompare (some (JVal.str p)) (some user.password_bcrypt)] := by
  have hbne : b ≠ "" := by
    intro h0
    rw [h0, parse_empty] at hp
    exact Option.noConfusion hp
  have hname : name ≠ "" := by
    rw [(usersGet_own env name user hk).1]
    decide
  simp only [handler, hm, bodyText_of_nonempty event b hb hbne, hp, getField, hu, hh]
  simp [truthyOpt, truthy, hname, hne, toStrOpt, toStr, hk, bcryptCompare, hc, stringify_credentials]

theorem returned_shape (env : Env) (event : Event) (r : Response)
    (h : (handler env event).outcome = Outcome.returned r) :
    r = ⟨405, "\x7b\"error\":\"Method not allowed\"\x7d"⟩
      ∨ r = ⟨400, "\x7b\"error\":\"Invalid JSON\"\x7d"⟩
      ∨ r = ⟨400, "\x7b\"error\":\"username and password_hash required\"\x7d"⟩
      ∨ r = ⟨401, "\x7b\"error\":\"Invalid credentials\"\x7d"⟩
      ∨ r = ⟨200, JSON.stringify [("token", env.sign "demo" "demo" (SECRET env) "2h"),
            ("username", "demo")]⟩ := by
  unfold handler at h
  split at h
  · simp only [Outcome.returned.injEq] at h
    rw [← h, stringify_method]
    simp
  · split at h
    · simp only [Outcome.returned.injEq] at h
      rw [← h, stringify_invalid_json]
      simp
    · split at h
      · simp at h
      · simp at h
      · split at h
        · simp only [Outcome.returned.injEq] at h
          rw [← h, stringify_required]
          simp
        · split at h
          · simp at h
          · split at h
            · simp only [Outcome.returned.injEq] at h
              rw [← h, stringify_credentials]
              simp
            · simp at h
            · rename_i user hk
              have hrec := (usersGet_own env _ user hk).2
              split at h
              · simp at h
              · simp only [Outcome.returned.injEq] at h
                rw [← h, stringify_credentials]
                simp
              · simp only [Outcome.returned.injEq] at h
                rw [← h, hrec]
                simp

/-- C1, at a failing request. A POST whose `username` is the non-empty string
`constructor` and whose `password_hash` is the non-empty string `x` names no
entry of `USERS`, yet the handler returns neither 200 nor 401: `USERS[username]`
finds `Object.prototype.constructor`, `bcrypt.compare` is called with an
`undefined` hash and the handler rejects, whatever the environment. -/
theorem constructor_request_rejected (env : Env) :
    JSON.parse "\x7b\"username\":\"constructor\",\"password_hash\":\"x\"\x7d"
        = some (JVal.obj [("username", JVal.str "constructor"), ("password_hash", JVal.str "x")])
      ∧ (USERS env).map Prod.fst = ["demo"]
      ∧ (handler env ⟨some "POST",
            some "\x7b\"username\":\"constructor\",\"password_hash\":\"x\"\x7d"⟩).outcome
          = Outcome.threw (JsError.error "Illegal arguments: string, undefined") :=
  ⟨rfl, rfl, rfl⟩

/-- C2, at failing requests. The handler rejects instead of returning a
response on a POST whose body is the JSON text `null` (the destructuring of
`null` throws a `TypeError`), on one whose `username` is `__proto__` (the lookup
finds `Object.prototype`, `bcrypt.compare` rejects), on one whose `username` is
an object with a member `toString` (the conversion to a property key throws),
and on one whose `password_hash` is a number for the known user (`bcrypt.compare`
rejects), whatever the environment. -/
theorem handler_rejects_malformed (env : Env) :
    (handler env ⟨some "POST", some "null"⟩).outcome = Outcome.threw JsError.typeError
      ∧ (handler env ⟨some "POST",
            some "\x7b\"username\":\"__proto__\",\"password_hash\":\"x\"\x7d"⟩).outcome
          = Outcome.threw (JsError.error "Illegal arguments: string, undefined")
      ∧ (handler env ⟨some "POST",
            some "\x7b\"username\":\x7b\"toString\":1\x7d,\"password_hash\":\"x\"\x7d"⟩).outcome
          = Outcome.threw JsError.typeError
      ∧ (handler env ⟨some "POST",
            some "\x7b\"username\":\"demo\",\"password_hash\":5\x7d"⟩).outcome
          = Outcome.threw (JsError.error "Illegal arguments: number, string") :=
  ⟨rfl, rfl, rfl, rfl⟩

/-- C3, at a failing request. A POST whose `username` is `hasOwnProperty`, not
the name of a user in the table, gets no 401 and no `delay(300)`: the handler
looks the key up, calls `bcrypt.compare` and rejects, whatever the
environment. -/
theorem handler_unknown_user_no_delay (env : Env) :
    (handler env ⟨some "POST",
          some "\x7b\"username\":\"hasOwnProperty\",\"password_hash\":\"x\"\x7d"⟩).outcome
        = Outcome.threw (JsError.error "Illegal arguments: string, undefined")
      ∧ (handler env ⟨some "POST",
          some "\x7b\"username\":\"hasOwnProperty\",\"password_hash\":\"x\"\x7d"⟩).trace
        = [Effect.jsonParse "\x7b\"username\":\"hasOwnProperty\",\"password_hash\":\"x\"\x7d",
           Effect.usersLookup "hasOwnProperty",
           Effect.bcryptCompare (some (JVal.str "x")) none] :=
  ⟨rfl, rfl⟩

/-- C4, at a failing pair. Of two POSTs with the non-empty `password_hash`
`x`, the one naming the unknown user `valueOf` is rejected while the one naming
the known user `demo`, whose stored hash `x` does not match, gets 401 with
`\x7b"error":"Invalid credentials"\x7d`: the two outcomes differ. -/
theorem handler_unknown_known_differ :
    (handler toyEnv ⟨some "POST",
          some "\x7b\"username\":\"valueOf\",\"password_hash\":\"x\"\x7d"⟩).outcome
        = Outcome.threw (JsError.error "Illegal arguments: string, undefined")
      ∧ toyEnv.compare "x" (demoStoredBcryptHash toyEnv) = false
      ∧ (handler toyEnv ⟨some "POST",
          some "\x7b\"username\":\"demo\",\"password_hash\":\"x\"\x7d"⟩).outcome
        = Outcome.returned ⟨401, "\x7b\"error\":\"Invalid credentials\"\x7d"⟩ := by
  refine ⟨by decide, by decide, by decide⟩

theorem onFailure_no_setItem (b : Browser) (res : HttpResponse) (k v : String) :
    PageEffect.setItem k v ∉ onFailure b res := by
  unfold onFailure
  cases getField (errorBody res) "error" with
  | error e => simp [onCatch]
  | ok field =>
    by_cases ht : truthyOpt field = true
    · cases hs : toStrOpt b.numberToString field <;> simp [ht, hs, onCatch]
    · simp [ht]

theorem submit_of_failure (b : Browser) (res : HttpResponse) (u p : String)
    (hf : ∀ url m body, b.fetch url m body = some res) (hok : res.ok = false) :
    submit b u p
      = [PageEffect.setTextContent "Procesando...",
          PageEffect.fetch "/.netlify/functions/login" "POST"
            (JSON.stringify [("username", jsTrim u), ("password_hash", sha256hex p)])]
        ++ onFailure b res := by
  simp [submit, hf, hok]

theorem getLast_append_singleton (l : List PageEffect) (x : PageEffect) :
    (l ++ [x]).getLast? = some x := by
  simp

/-- C10, as stated, fails on a body that is not JSON: for the response 404
`Not Found` with the body `not json` the listener shows `unknown`, the value of
its own `catch` default, and not the status text. -/
theorem submit_unparseable_counterexample :
    HttpResponse.ok ⟨404, "Not Found", "not json"⟩ = false
      ∧ JSON.parse "not json" = none
      ∧ (submit (toyBrowser ⟨404, "Not Found", "not json"⟩) "demo" "Password123!").getLast?
          = some (PageEffect.setInnerHTML (errorSpan "unknown"))
      ∧ errorSpan "unknown" ≠ errorSpan "Not Found" := by
  refine ⟨rfl, rfl, by decide, by decide⟩

/-- C10, amended. In the submit listener, for every non-2xx response nothing is
written to browser storage, and the message shown last is the error template
around: the `error` field of the response's JSON body when the body parses to
an object whose `error` is a non-empty string; the HTTP status text when the
body parses as JSON to a value other than `null` whose `error` is missing or
falsy; the word `unknown` when the body cannot be parsed as JSON. -/
theorem submit_failure (b : Browser) (res : HttpResponse) (u p : String)
    (hf : ∀ url m body, b.fetch url m body = some res) (hok : res.ok = false) :
    (∀ k v : String, PageEffect.setItem k v ∉ submit b u p)
      ∧ (∀ (ms : List (String × JVal)) (s : String),
          JSON.parse res.text = some (JVal.obj ms) → ownProp ms "error" = some (JVal.str s) →
          s ≠ "" →
          (submit b u p).getLast? = some (PageEffect.setInnerHTML (errorSpan s)))
      ∧ (∀ (v : JVal) (field : Option JVal),
          JSON.parse res.text = some v → getField v "error" = Except.ok field →
          truthyOpt field = false →
          (submit b u p).getLast? = some (PageEffect.setInnerHTML (errorSpan res.statusText)))
      ∧ (JSON.parse res.text = none →
          (submit b u p).getLast? = some (PageEffect.setInnerHTML (errorSpan "unknown"))) := by
  rw [submit_of_failure b res u p hf hok]
  refine ⟨?_, ?_, ?_, ?_⟩
  · intro k v hmem
    rw [List.mem_append] at hmem
    rcases hmem with h | h
    · simp at h
    · exact onFailure_no_setItem b res k v h
  · intro ms s hp he hne
    simp [onFailure, errorBody, hp, getField, he, truthyOpt, truthy, hne, toStrOpt, toStr]
  · intro v field hp he hfalse
    simp [onFailure, errorBody, hp, he, hfalse]
  · intro hp
    simp [onFailure, errorBody, hp, getField, ownProp, truthyOpt, truthy, toStrOpt, toStr]

theorem submit_failure_witness :
    (∀ k v : String, PageEffect.setItem k v ∉
        submit (toyBrowser ⟨401, "Unauthorized", "\x7b\"error\":\"Invalid credentials\"\x7d"⟩)
          "demo" "wrong")
      ∧ (submit (toyBrowser ⟨401, "Unauthorized", "\x7b\"error\":\"Invalid credentials\"\x7d"⟩)
          "demo" "wrong").getLast?
        = some (PageEffect.setInnerHTML (errorSpan "Invalid credentials")) :=
  ⟨(submit_failure (toyBrowser ⟨401, "Unauthorized", "\x7b\"error\":\"Invalid credentials\"\x7d"⟩)
      ⟨401, "Unauthorized", "\x7b\"error\":\"Invalid credentials\"\x7d"⟩ "demo" "wrong"
      (fun _ _ _ => rfl) rfl).1,
   (submit_failure (toyBrowser ⟨401, "Unauthorized", "\x7b\"error\":\"Invalid credentials\"\x7d"⟩)
      ⟨401, "Unauthorized", "\x7b\"error\":\"Invalid credentials\"\x7d"⟩ "demo" "wrong"
      (fun _ _ _ => rfl) rfl).2.1 [("error", JVal.str "Invalid credentials")] "Invalid credentials"
      rfl rfl (by decide)⟩

end Gategroup
